import Mathlib

/-!
Verification of the `tutorials/building_text_classifier.ipynb` notebook:
a shallow embedding of its data-pipeline glue (row filtering, feature
conversion, layer freezing, and the DP training/evaluation loop) together
with theorems about that embedding. Definitions come first, theorems
follow.
-/

namespace TextClassifier

/-! ## Notebook constants -/

def LABEL_LIST : List String := ["contradiction", "entailment", "neutral"]

def MAX_SEQ_LENGHT : Nat := 128

def BATCH_SIZE : Nat := 8

def VIRTUAL_BATCH_SIZE : Nat := 32

def EPOCHS : Nat := 3

def LOGGING_INTERVAL : Nat := 1000

/-- `virtual_batch_rate = VIRTUAL_BATCH_SIZE / BATCH_SIZE`; the notebook
asserts `VIRTUAL_BATCH_SIZE % BATCH_SIZE == 0`, under which the Python
float division agrees with natural division. -/
def virtual_batch_rate : Nat := VIRTUAL_BATCH_SIZE / BATCH_SIZE

/-! ## Data model: dataframe rows and examples

A pandas cell read from the SNLI tsv is either a string or some non-string
value (e.g. a missing-value float); the notebook only inspects string-ness
of the sentence cells and list membership of the label cell. -/

inductive PyCell where
  | str (s : String)
  | nonStr
  deriving DecidableEq, Repr

/-- `isinstance(value, str)` on a cell. -/
def PyCell.isStr : PyCell → Bool
  | .str _ => true
  | .nonStr => false

/-- The string content of a cell (only inspected on cells known to be
strings). -/
def PyCell.asStr : PyCell → String
  | .str s => s
  | .nonStr => ""

/-- The three columns of an SNLI dataframe row that the notebook reads. -/
structure Row where
  sentence1 : PyCell
  sentence2 : PyCell
  gold_label : PyCell
  deriving DecidableEq, Repr

/-- `value in LABEL_LIST` for a cell (a non-string cell is never a member
of a list of strings). -/
def labelInList (c : PyCell) : Bool :=
  match c with
  | .str s => s ∈ LABEL_LIST
  | .nonStr => false

/-- `transformers.data.processors.utils.InputExample` as the notebook uses
it: four string fields. -/
structure InputExample where
  guid : String
  text_a : String
  text_b : String
  label : String
  deriving DecidableEq, Repr

/-- The guid `f"{index}-{set_type}"`. -/
def mkGuid (index : Nat) (set_type : String) : String :=
  toString index ++ "-" ++ set_type

/-- The example built from a row that passed both filters. -/
def mkExample (index : Nat) (set_type : String) (row : Row) : InputExample :=
  { guid := mkGuid index set_type
    text_a := row.sentence1.asStr
    text_b := row.sentence2.asStr
    label := row.gold_label.asStr }

/-- `_create_examples(df, set_type)`: iterate the dataframe rows in order
(`df.iterrows()` yields index/row pairs), `continue` past rows whose label
is outside `LABEL_LIST` or whose sentences are not both strings, and
collect an `InputExample` per surviving row. -/
def createExamples : List (Nat × Row) → String → List InputExample
  | [], _ => []
  | (index, row) :: rest, set_type =>
    if labelInList row.gold_label = false then
      createExamples rest set_type
    else if row.sentence1.isStr = false ∨ row.sentence2.isStr = false then
      createExamples rest set_type
    else
      mkExample index set_type row :: createExamples rest set_type

/-- A row survives `_create_examples`'s two `continue` guards. -/
def keepRow (row : Row) : Bool :=
  labelInList row.gold_label && row.sentence1.isStr && row.sentence2.isStr

/-! ## Training loop: the sequence of externally visible operations

The training loop of the notebook, per epoch, iterates the physical
batches `step = 0, 1, ..., n-1` (`n = len(train_dataloader)`). Each batch
runs a forward/backward pass, then exactly one branch of

    if (step + 1) % virtual_batch_rate == 0 or step == len(train_dataloader) - 1:
        optimizer.step()
    else:
        optimizer.virtual_step()

then `model.zero_grad()`, and finally (when `step > 0 and
step % LOGGING_INTERVAL == 0`) queries
`optimizer.privacy_engine.get_privacy_spent(DELTA)` and runs the
evaluation cycle. Before any epoch, `privacy_engine.attach(optimizer)`
is executed once. We embed this control flow as the list of operations
it performs. -/

inductive Op where
  | attach
  | detach
  | optStep
  | virtualStep
  | getPrivacySpent
  | forwardBackward
  | zeroGrad
  | evaluateCall
  deriving DecidableEq, Repr

/-- Operations belonging to the privacy-preserving optimizer wrapper's
surface (attach / detach / step / virtual-step / get-privacy-spent), as
opposed to model- or loop-level operations. -/
def isWrapperOp : Op → Bool
  | .attach => true
  | .detach => true
  | .optStep => true
  | .virtualStep => true
  | .getPrivacySpent => true
  | _ => false

/-- The optimizer call chosen on physical batch `s` of an epoch of `n`
batches: `optimizer.step()` when the accumulation boundary is reached or
the batch is the last of the epoch, else `optimizer.virtual_step()`. -/
def batchChoice (n s : Nat) : Op :=
  if (s + 1) % virtual_batch_rate = 0 ∨ s = n - 1 then Op.optStep else Op.virtualStep

/-- The operations performed on physical batch `s` of an epoch of `n`
batches, with logging interval `li`. -/
def batchTrace (n li s : Nat) : List Op :=
  [Op.forwardBackward, batchChoice n s, Op.zeroGrad] ++
    (if 0 < s ∧ s % li = 0 then [Op.getPrivacySpent, Op.evaluateCall] else [])

/-- One epoch: the batch traces in order. -/
def epochTrace (n li : Nat) : List Op :=
  (List.range n).flatMap (fun s => batchTrace n li s)

/-- The whole training phase: attach the engine once, then run the
epochs. -/
def notebookTrace (epochs n li : Nat) : List Op :=
  Op.attach :: (List.range epochs).flatMap (fun _ => epochTrace n li)

/-- The wrapper operations actually invoked during the training phase. -/
def wrapperOpsInvoked (t : List Op) : List Op :=
  t.filter isWrapperOp

/-! ## Layer freezing

The notebook freezes every model parameter, accumulating `total_params`,
then re-enables `requires_grad` on the parameters of the modules in
`trainable_layers` (last encoder block, pooler, classifier), accumulating
`trainable_params`:

    for p in model.parameters():
        p.requires_grad = False
        total_params += p.numel()
    for layer in trainable_layers:
        for p in layer.parameters():
            p.requires_grad = True
            trainable_params += p.numel()

A parameter tensor is embedded as an identity, an element count, and its
`requires_grad` flag; a layer is the list of identities of its
parameters. -/

structure Param where
  id : Nat
  numel : Nat
  requires_grad : Bool
  deriving DecidableEq, Repr

/-- The first loop's mutation: every parameter's `requires_grad` set to
`False`. -/
def freezeAll (params : List Param) : List Param :=
  params.map (fun p => { p with requires_grad := false })

/-- The first loop's accumulator: `total_params`. -/
def total_params (params : List Param) : Nat :=
  (params.map (fun p => p.numel)).sum

/-- One iteration of the outer second loop: the parameters of one layer
get `requires_grad = True`. -/
def setLayerTrainable (l : List Nat) (params : List Param) : List Param :=
  params.map (fun p => if p.id ∈ l then { p with requires_grad := true } else p)

/-- The second loop over all trainable layers, in order. -/
def setTrainableLayers (layers : List (List Nat)) (params : List Param) : List Param :=
  layers.foldl (fun ps l => setLayerTrainable l ps) params

/-- The parameters of one layer, as parameters of the model. -/
def layerNumel (params : List Param) (l : List Nat) : Nat :=
  ((params.filter (fun p => p.id ∈ l)).map (fun p => p.numel)).sum

/-- The second loop's accumulator: `trainable_params`. -/
def trainable_params (params : List Param) (layers : List (List Nat)) : Nat :=
  (layers.map (fun l => layerNumel params l)).sum

/-- Total element count of the parameters left frozen
(`requires_grad = False`). -/
def frozenNumel (params : List Param) : Nat :=
  ((params.filter (fun p => p.requires_grad = false)).map (fun p => p.numel)).sum

/-! ## Feature conversion -/

/-- `transformers` `InputFeatures`: fixed-length integer sequences plus
an integer label. -/
structure InputFeatures where
  input_ids : List Nat
  attention_mask : List Nat
  token_type_ids : List Nat
  label : Nat
  deriving DecidableEq, Repr

def CLS_ID : Nat := 101

def SEP_ID : Nat := 102

/-- Modelled from the spec: `glue_convert_examples_to_features` lives in
the external huggingface `transformers` library, not in this repository;
the notebook's `_df_to_features` docstring specifies what it does — "1)
tokenize inputs, 2) cut or pad each sequence to MAX_SEQ_LENGHT, 3)
convert tokens into ids", returning padded token ids, a mask indicating
padded tokens, and a premise/hypothesis segment mask. We model one
example's conversion over an arbitrary tokenizer: form the
`[CLS] a [SEP] b [SEP]` id sequence with its segment ids, cut both to
`max_length`, and pad ids, mask, and segments up to `max_length`. -/
def convertExample (tokenize : String → List Nat) (label_list : List String)
    (max_length : Nat) (e : InputExample) : InputFeatures :=
  let ta := tokenize e.text_a
  let tb := tokenize e.text_b
  let ids := [CLS_ID] ++ ta ++ [SEP_ID] ++ tb ++ [SEP_ID]
  let segs := List.replicate (ta.length + 2) 0 ++ List.replicate (tb.length + 1) 1
  let ids_t := ids.take max_length
  let segs_t := segs.take max_length
  { input_ids := ids_t ++ List.replicate (max_length - ids_t.length) 0
    attention_mask :=
      List.replicate ids_t.length 1 ++ List.replicate (max_length - ids_t.length) 0
    token_type_ids := segs_t ++ List.replicate (max_length - segs_t.length) 0
    label := label_list.indexOf e.label }

/-- Modelled from the spec: the batch form of the external converter,
example by example. -/
def glue_convert_examples_to_features (tokenize : String → List Nat)
    (examples : List InputExample) (label_list : List String) (max_length : Nat) :
    List InputFeatures :=
  examples.map (fun e => convertExample tokenize label_list max_length e)

/-- `_df_to_features(df, set_type)`: build examples with
`_create_examples`, then convert them with `max_length = MAX_SEQ_LENGHT`
and `label_list = LABEL_LIST`. -/
def df_to_features (tokenize : String → List Nat) (df : List (Nat × Row))
    (set_type : String) : List InputFeatures :=
  glue_convert_examples_to_features tokenize (createExamples df set_type)
    LABEL_LIST MAX_SEQ_LENGHT

/-! ## Download / error propagation -/

/-- `download_and_extract(dataset_url, data_dir)`: retrieve the archive,
extract it, delete the zip. The notebook wraps none of these external
calls in a handler, so the embedding sequences the three fallible
external effects in the `Except` monad and any failure propagates. -/
def download_and_extract {ε : Type} (urlretrieve extractall removeFile : Except ε Unit) :
    Except ε Unit := do
  urlretrieve
  extractall
  removeFile

/-! ## Evaluation cycle -/

/-- The model as the evaluation cycle sees it: weights plus the
train/eval mode flag toggled by `model.train()` / `model.eval()`. -/
structure ModelState (W : Type) where
  weights : W
  training : Bool

def model_eval {W : Type} (m : ModelState W) : ModelState W :=
  { m with training := false }

def model_train {W : Type} (m : ModelState W) : ModelState W :=
  { m with training := true }

def listMean (l : List ℚ) : ℚ :=
  l.sum / l.length

/-- `evaluate(model)`: switch to eval mode; for each test batch run a
forward pass under `torch.no_grad` — a pure read of the weights
producing a loss and an accuracy — collecting both; call
`model.train()`; return the mean loss and mean accuracy. -/
def evaluate {W B : Type} (forward : W → B → ℚ × ℚ) (m : ModelState W)
    (test_batches : List B) : ModelState W × ℚ × ℚ :=
  let m₁ := model_eval m
  let results := test_batches.map (fun b => forward m₁.weights b)
  let loss_arr := results.map Prod.fst
  let accuracy_arr := results.map Prod.snd
  let m₂ := model_train m₁
  (m₂, listMean loss_arr, listMean accuracy_arr)

/-! ## Concrete sample data for witnesses -/

def rowGood : Row :=
  { sentence1 := .str "A person on a horse", sentence2 := .str "A person is outdoors",
    gold_label := .str "entailment" }

def rowBadLabel : Row :=
  { sentence1 := .str "a", sentence2 := .str "b", gold_label := .str "-" }

def rowBadSent : Row :=
  { sentence1 := .nonStr, sentence2 := .str "b", gold_label := .str "neutral" }

def paramsEx : List Param :=
  [{ id := 0, numel := 5, requires_grad := true },
   { id := 1, numel := 7, requires_grad := false },
   { id := 2, numel := 3, requires_grad := true }]

def tokEx : String → List Nat := fun s => [s.length]

/-! ## Lemmas about `_create_examples` -/

lemma createExamples_cons_keep (index : Nat) (row : Row) (rest : List (Nat × Row))
    (set_type : String) (h : keepRow row = true) :
    createExamples ((index, row) :: rest) set_type =
      mkExample index set_type row :: createExamples rest set_type := by
  simp only [keepRow, Bool.and_eq_true] at h
  simp [createExamples, h.1.1, h.1.2, h.2]

lemma createExamples_cons_drop (index : Nat) (row : Row) (rest : List (Nat × Row))
    (set_type : String) (h : keepRow row = false) :
    createExamples ((index, row) :: rest) set_type = createExamples rest set_type := by
  by_cases hl : labelInList row.gold_label = false
  · simp [createExamples, hl]
  · simp only [keepRow, Bool.and_eq_false_iff] at h
    rcases h with (h | h) | h
    · exact absurd h hl
    · simp [createExamples, hl, h]
    · simp [createExamples, hl, h]

/-- `_create_examples` is the filter-then-map of its two guards. -/
lemma createExamples_eq_filterMap (df : List (Nat × Row)) (set_type : String) :
    createExamples df set_type =
      (df.filter (fun p => keepRow p.2)).map (fun p => mkExample p.1 set_type p.2) := by
  induction df with
  | nil => rfl
  | cons p rest ih =>
    obtain ⟨index, row⟩ := p
    by_cases h : keepRow row = true
    · rw [createExamples_cons_keep index row rest set_type h]
      simp [List.filter_cons, h, ih]
    · rw [createExamples_cons_drop index row rest set_type (by simpa using h)]
      simp only [List.filter_cons]
      simp [Bool.not_eq_true] at h
      simp [h, ih]

/-- Deleting a row that fails the guards does not change the output of
`_create_examples`: the row is excluded. -/
lemma createExamples_erase_dropped (pre post : List (Nat × Row)) (index : Nat)
    (row : Row) (set_type : String) (h : keepRow row = false) :
    createExamples (pre ++ (index, row) :: post) set_type =
      createExamples (pre ++ post) set_type := by
  rw [createExamples_eq_filterMap, createExamples_eq_filterMap]
  simp [List.filter_append, List.filter_cons, h]

/-! ## Lemmas about the loop trace -/

lemma batchChoice_eq_optStep (n s : Nat) :
    batchChoice n s = Op.optStep ↔ ((s + 1) % virtual_batch_rate = 0 ∨ s = n - 1) := by
  unfold batchChoice
  split <;> simp_all

lemma batchChoice_eq_virtualStep (n s : Nat) :
    batchChoice n s = Op.virtualStep ↔ ¬((s + 1) % virtual_batch_rate = 0 ∨ s = n - 1) := by
  unfold batchChoice
  split <;> simp_all

lemma virtual_batch_rate_eq : virtual_batch_rate = 4 := by decide

lemma detach_not_mem_batchTrace (n li s : Nat) : Op.detach ∉ batchTrace n li s := by
  unfold batchTrace batchChoice
  intro h
  simp only [List.mem_append, List.mem_cons, List.not_mem_nil] at h
  rcases h with h | h
  · rcases h with h | h | h | h
    · exact Op.noConfusion h
    · split at h <;> exact Op.noConfusion h
    · exact Op.noConfusion h
    · exact h.elim
  · split at h <;> simp_all

/-! ## Lemmas about layer freezing -/

lemma sum_map_add_nat {α : Type} (f g : α → Nat) (l : List α) :
    (l.map (fun x => f x + g x)).sum = (l.map f).sum + (l.map g).sum := by
  induction l with
  | nil => rfl
  | cons a t ih => simp [ih]; omega

lemma sum_filter_eq_sum_ite {α : Type} (q : α → Bool) (f : α → Nat) (l : List α) :
    ((l.filter q).map f).sum = (l.map (fun x => if q x then f x else 0)).sum := by
  induction l with
  | nil => rfl
  | cons a t ih =>
    by_cases h : q a <;> simp [List.filter_cons, h, ih]

/-- After the two loops, a parameter's `requires_grad` is exactly "its id
belongs to some trainable layer". -/
lemma setTrainableLayers_freezeAll_eq_map (layers : List (List Nat)) (params : List Param) :
    setTrainableLayers layers (freezeAll params) =
      params.map (fun p =>
        { p with requires_grad := layers.any (fun l => p.id ∈ l) }) := by
  suffices hgen : ∀ (ls : List (List Nat)) (ps : List Param),
      setTrainableLayers ls ps = ps.map (fun p =>
        if ls.any (fun l => p.id ∈ l) then { p with requires_grad := true } else p) by
    rw [freezeAll, hgen, List.map_map]
    apply List.map_congr_left
    intro p _
    by_cases h : layers.any (fun l => p.id ∈ l) <;> simp [Function.comp, h]
  intro ls
  induction ls with
  | nil => intro ps; simp [setTrainableLayers]
  | cons l t ih =>
    intro ps
    have hstep : setTrainableLayers (l :: t) ps = setTrainableLayers t (setLayerTrainable l ps) := rfl
    rw [hstep, ih, setLayerTrainable, List.map_map]
    apply List.map_congr_left
    intro p _
    by_cases hl : p.id ∈ l
    · by_cases ht : t.any (fun m => p.id ∈ m) <;> simp [Function.comp, hl, ht]
    · by_cases ht : t.any (fun m => p.id ∈ m) <;> simp [Function.comp, hl, ht]

/-- With pairwise-disjoint layers, `trainable_params` is the pointwise
sum of the element counts of parameters belonging to some layer. -/
lemma trainable_params_eq_sum_ite (params : List Param) (layers : List (List Nat))
    (hdisj : layers.Pairwise (fun l₁ l₂ => ∀ i, i ∈ l₁ → i ∉ l₂)) :
    trainable_params params layers =
      (params.map (fun p => if layers.any (fun l => p.id ∈ l) then p.numel else 0)).sum := by
  induction layers with
  | nil => simp [trainable_params]
  | cons l t ih =>
    have hd := List.pairwise_cons.mp hdisj
    have hrec := ih hd.2
    have hhead : layerNumel params l =
        (params.map (fun p => if p.id ∈ l then p.numel else 0)).sum := by
      rw [layerNumel, sum_filter_eq_sum_ite]
      apply congrArg
      apply List.map_congr_left
      intro p _
      by_cases h : p.id ∈ l <;> simp [h]
    have hsplit : (params.map (fun p =>
        if (l :: t).any (fun m => p.id ∈ m) then p.numel else 0)).sum =
        (params.map (fun p => if p.id ∈ l then p.numel else 0)).sum +
          (params.map (fun p => if t.any (fun m => p.id ∈ m) then p.numel else 0)).sum := by
      rw [← sum_map_add_nat]
      apply congrArg
      apply List.map_congr_left
      intro p _
      by_cases hl : p.id ∈ l
      · have ht : t.any (fun m => p.id ∈ m) = false := by
          simp only [List.any_eq_false]
          intro m hm
          simpa using hd.1 m hm p.id hl
        simp [hl, ht]
      · by_cases ht : t.any (fun m => p.id ∈ m) <;> simp [hl, ht]
    have hcons : trainable_params params (l :: t) =
        layerNumel params l + trainable_params params t := by
      simp [trainable_params]
    rw [hcons, hrec, hhead, hsplit]

/-! ## Claim theorems -/

/-- C1: with `VIRTUAL_BATCH_SIZE` divisible by `BATCH_SIZE`, the loop
performs a weight update (`optimizer.step()`) on batch `s` exactly when
`s` closes a group of `virtual_batch_rate` batches or is the last batch
of the epoch, and only the virtual accumulation step on every other
batch; hence each aligned group of `virtual_batch_rate` batches contains
exactly one weight update, and the last batch always updates. -/
theorem virtual_batch_update_schedule (n : Nat)
    (_hdvd : VIRTUAL_BATCH_SIZE % BATCH_SIZE = 0) :
    (∀ s, s < n →
        (batchChoice n s = Op.optStep ↔
          ((s + 1) % virtual_batch_rate = 0 ∨ s = n - 1)))
      ∧ (∀ s, s < n →
          (batchChoice n s = Op.virtualStep ↔
            ¬((s + 1) % virtual_batch_rate = 0 ∨ s = n - 1)))
      ∧ (∀ j, (j + 1) * virtual_batch_rate ≤ n →
          ((Finset.Ico (j * virtual_batch_rate) ((j + 1) * virtual_batch_rate)).filter
              (fun s => batchChoice n s = Op.optStep)).card = 1)
      ∧ (0 < n → batchChoice n (n - 1) = Op.optStep) := by
  refine ⟨fun s _ => batchChoice_eq_optStep n s,
    fun s _ => batchChoice_eq_virtualStep n s, ?_, ?_⟩
  · intro j hj
    rw [virtual_batch_rate_eq] at hj
    have : (Finset.Ico (j * virtual_batch_rate) ((j + 1) * virtual_batch_rate)).filter
        (fun s => batchChoice n s = Op.optStep) = {4 * j + 3} := by
      ext s
      simp only [Finset.mem_filter, Finset.mem_Ico, batchChoice_eq_optStep,
        virtual_batch_rate_eq, Finset.mem_singleton]
      omega
    rw [this, Finset.card_singleton]
  · intro _
    exact (batchChoice_eq_optStep n (n - 1)).mpr (Or.inr rfl)

theorem virtual_batch_update_schedule_witness :
    VIRTUAL_BATCH_SIZE % BATCH_SIZE = 0
      ∧ (batchChoice 6 3 = Op.optStep ↔ ((3 + 1) % virtual_batch_rate = 0 ∨ 3 = 6 - 1))
      ∧ (batchChoice 6 2 = Op.virtualStep ↔ ¬((2 + 1) % virtual_batch_rate = 0 ∨ 2 = 6 - 1))
      ∧ ((Finset.Ico (0 * virtual_batch_rate) ((0 + 1) * virtual_batch_rate)).filter
          (fun s => batchChoice 6 s = Op.optStep)).card = 1
      ∧ batchChoice 6 (6 - 1) = Op.optStep :=
  ⟨by decide,
    (virtual_batch_update_schedule 6 (by decide)).1 3 (by decide),
    (virtual_batch_update_schedule 6 (by decide)).2.1 2 (by decide),
    (virtual_batch_update_schedule 6 (by decide)).2.2.1 0 (by decide),
    (virtual_batch_update_schedule 6 (by decide)).2.2.2 (by decide)⟩

/-- C2: a row whose `gold_label` is not one of the three strings of
`LABEL_LIST` is excluded from the example set: deleting it from the
dataframe leaves the output of `_create_examples` unchanged. -/
theorem create_examples_excludes_bad_label (pre post : List (Nat × Row)) (index : Nat)
    (row : Row) (set_type : String) (h : labelInList row.gold_label = false) :
    createExamples (pre ++ (index, row) :: post) set_type =
      createExamples (pre ++ post) set_type := by
  apply createExamples_erase_dropped
  simp [keepRow, h]

theorem create_examples_excludes_bad_label_witness :
    labelInList rowBadLabel.gold_label = false ∧
      createExamples ([(0, rowGood)] ++ (1, rowBadLabel) :: [(2, rowGood)]) "train" =
        createExamples ([(0, rowGood)] ++ [(2, rowGood)]) "train" :=
  ⟨by decide,
    create_examples_excludes_bad_label [(0, rowGood)] [(2, rowGood)] 1 rowBadLabel "train"
      (by decide)⟩

/-- C3: a row whose `sentence1` or `sentence2` cell is not a string is
excluded from the example set: deleting it from the dataframe leaves the
output of `_create_examples` unchanged. -/
theorem create_examples_excludes_non_string (pre post : List (Nat × Row)) (index : Nat)
    (row : Row) (set_type : String)
    (h : row.sentence1.isStr = false ∨ row.sentence2.isStr = false) :
    createExamples (pre ++ (index, row) :: post) set_type =
      createExamples (pre ++ post) set_type := by
  apply createExamples_erase_dropped
  rcases h with h | h <;> simp [keepRow, h]

theorem create_examples_excludes_non_string_witness :
    (rowBadSent.sentence1.isStr = false ∨ rowBadSent.sentence2.isStr = false) ∧
      createExamples ([(0, rowGood)] ++ (1, rowBadSent) :: [(2, rowGood)]) "test" =
        createExamples ([(0, rowGood)] ++ [(2, rowGood)]) "test" :=
  ⟨by decide,
    create_examples_excludes_non_string [(0, rowGood)] [(2, rowGood)] 1 rowBadSent "test"
      (by decide)⟩

/-- C4: every feature record produced by `_df_to_features` has
`input_ids`, `attention_mask`, and `token_type_ids` of length exactly
`MAX_SEQ_LENGHT`. -/
theorem df_to_features_fixed_lengths (tokenize : String → List Nat)
    (df : List (Nat × Row)) (set_type : String) :
    ∀ f ∈ df_to_features tokenize df set_type,
      f.input_ids.length = MAX_SEQ_LENGHT ∧
        f.attention_mask.length = MAX_SEQ_LENGHT ∧
        f.token_type_ids.length = MAX_SEQ_LENGHT := by
  intro f hf
  simp only [df_to_features, glue_convert_examples_to_features, List.mem_map] at hf
  obtain ⟨e, _, rfl⟩ := hf
  refine ⟨?_, ?_, ?_⟩ <;>
    simp [convertExample, List.length_take]

theorem df_to_features_fixed_lengths_witness :
    (convertExample tokEx LABEL_LIST MAX_SEQ_LENGHT (mkExample 0 "train" rowGood)).input_ids.length
        = MAX_SEQ_LENGHT ∧
      (convertExample tokEx LABEL_LIST MAX_SEQ_LENGHT
          (mkExample 0 "train" rowGood)).attention_mask.length = MAX_SEQ_LENGHT ∧
      (convertExample tokEx LABEL_LIST MAX_SEQ_LENGHT
          (mkExample 0 "train" rowGood)).token_type_ids.length = MAX_SEQ_LENGHT :=
  df_to_features_fixed_lengths tokEx [(0, rowGood)] "train"
    (convertExample tokEx LABEL_LIST MAX_SEQ_LENGHT (mkExample 0 "train" rowGood))
    (by decide)

/-- C5: after the freezing step, the frozen element count
(`requires_grad = False`) plus `trainable_params` equals `total_params`,
provided the trainable layers are pairwise disjoint (as the last encoder
block, pooler, and classifier are). -/
theorem frozen_plus_trainable_eq_total (params : List Param) (layers : List (List Nat))
    (hdisj : layers.Pairwise (fun l₁ l₂ => ∀ i, i ∈ l₁ → i ∉ l₂)) :
    frozenNumel (setTrainableLayers layers (freezeAll params)) +
        trainable_params params layers = total_params params := by
  rw [trainable_params_eq_sum_ite params layers hdisj,
    setTrainableLayers_freezeAll_eq_map, frozenNumel, sum_filter_eq_sum_ite,
    List.map_map, total_params]
  rw [← sum_map_add_nat]
  apply congrArg
  apply List.map_congr_left
  intro p _
  by_cases h : layers.any (fun l => p.id ∈ l) <;> simp [Function.comp, h]

theorem frozen_plus_trainable_eq_total_witness :
    ([[1], [2]] : List (List Nat)).Pairwise (fun l₁ l₂ => ∀ i, i ∈ l₁ → i ∉ l₂) ∧
      frozenNumel (setTrainableLayers [[1], [2]] (freezeAll paramsEx)) +
          trainable_params paramsEx [[1], [2]] = total_params paramsEx :=
  ⟨by decide, frozen_plus_trainable_eq_total paramsEx [[1], [2]] (by decide)⟩

/-- C6: malformed rows (failing either of `_create_examples`'s guards)
are skipped silently — deleting one changes nothing and no error value is
produced — while a failure of any of the external calls of
`download_and_extract` propagates unhandled as that same error. -/
theorem malformed_skipped_other_failures_propagate :
    (∀ (pre post : List (Nat × Row)) (index : Nat) (row : Row) (set_type : String),
        keepRow row = false →
          createExamples (pre ++ (index, row) :: post) set_type =
            createExamples (pre ++ post) set_type)
      ∧ (∀ (ε : Type) (e : ε) (extractall removeFile : Except ε Unit),
          download_and_extract (Except.error e) extractall removeFile = Except.error e)
      ∧ (∀ (ε : Type) (e : ε) (removeFile : Except ε Unit),
          download_and_extract (Except.ok ()) (Except.error e) removeFile = Except.error e)
      ∧ (∀ (ε : Type) (e : ε),
          download_and_extract (Except.ok ()) (Except.ok ()) (Except.error e) =
            Except.error e) :=
  ⟨fun pre post index row set_type h =>
      createExamples_erase_dropped pre post index row set_type h,
    fun _ _ _ _ => rfl, fun _ _ _ => rfl, fun _ _ => rfl⟩

theorem malformed_skipped_other_failures_propagate_witness :
    createExamples ([] ++ (1, rowBadLabel) :: []) "train" = createExamples ([] ++ []) "train" :=
  malformed_skipped_other_failures_propagate.1 [] [] 1 rowBadLabel "train" (by decide)

/-- C7 as stated is false: the notebook invokes wrapper operations other
than the step and virtual-step methods. Concretely, with the notebook's
`EPOCHS` and `LOGGING_INTERVAL` and an epoch of 8 physical batches, the
invoked wrapper operations are not all in {step, virtual-step}:
`privacy_engine.attach(optimizer)` is invoked. -/
theorem wrapper_only_two_methods_counterexample :
    ¬(∀ op ∈ wrapperOpsInvoked (notebookTrace EPOCHS 8 LOGGING_INTERVAL),
        op = Op.optStep ∨ op = Op.virtualStep) := by
  decide

/-- C7 amended: the notebook invokes exactly four operations of the
privacy-preserving optimizer wrapper — attach, step, virtual-step, and
get-privacy-spent — and no other wrapper operation. -/
theorem wrapper_ops_invoked_subset (epochs n li : Nat) :
    ∀ op ∈ wrapperOpsInvoked (notebookTrace epochs n li),
      op = Op.attach ∨ op = Op.optStep ∨ op = Op.virtualStep ∨ op = Op.getPrivacySpent := by
  intro op hop
  simp only [wrapperOpsInvoked, List.mem_filter] at hop
  obtain ⟨hmem, hwrap⟩ := hop
  cases op with
  | attach => exact Or.inl rfl
  | optStep => exact Or.inr (Or.inl rfl)
  | virtualStep => exact Or.inr (Or.inr (Or.inl rfl))
  | getPrivacySpent => exact Or.inr (Or.inr (Or.inr rfl))
  | detach =>
    exfalso
    simp only [notebookTrace, List.mem_cons, List.mem_flatMap] at hmem
    rcases hmem with h | ⟨_, _, h⟩
    · exact Op.noConfusion h
    · simp only [epochTrace, List.mem_flatMap] at h
      obtain ⟨s, _, h⟩ := h
      exact detach_not_mem_batchTrace n li s h
  | forwardBackward => exact absurd hwrap (by simp [isWrapperOp])
  | zeroGrad => exact absurd hwrap (by simp [isWrapperOp])
  | evaluateCall => exact absurd hwrap (by simp [isWrapperOp])

theorem wrapper_ops_invoked_subset_witness :
    Op.attach = Op.attach ∨ Op.attach = Op.optStep ∨ Op.attach = Op.virtualStep ∨
      Op.attach = Op.getPrivacySpent :=
  wrapper_ops_invoked_subset 1 1 1 Op.attach (by decide)

/-- C8: on every physical batch, exactly one of `optimizer.step()` and
`optimizer.virtual_step()` appears in the batch's operations (never both,
never neither), and `model.zero_grad()` appears exactly once, immediately
after that choice (positions 1 and 2 of the batch trace). -/
theorem batch_exclusive_choice_then_zero_grad (n li s : Nat) :
    (batchTrace n li s).countP (fun o => decide (o = Op.optStep ∨ o = Op.virtualStep)) = 1
      ∧ (batchTrace n li s).countP (fun o => decide (o = Op.zeroGrad)) = 1
      ∧ (batchTrace n li s)[1]? = some (batchChoice n s)
      ∧ (batchChoice n s = Op.optStep ∨ batchChoice n s = Op.virtualStep)
      ∧ (batchTrace n li s)[2]? = some Op.zeroGrad := by
  unfold batchTrace batchChoice
  by_cases h1 : (s + 1) % virtual_batch_rate = 0 ∨ s = n - 1 <;>
    by_cases h2 : 0 < s ∧ s % li = 0 <;>
      simp [h1, h2, List.countP_cons, List.countP_append]

/-- C9: `_create_examples` is an order-preserving filter: its output is
the filter of the rows through both guards mapped to examples whose
fields copy the row's cells, hence a sublist (subsequence) of the
row-by-row example list in original order, and every retained example's
label is a member of `LABEL_LIST`. -/
theorem create_examples_order_preserving_filter (df : List (Nat × Row)) (set_type : String) :
    createExamples df set_type =
        (df.filter (fun p => keepRow p.2)).map (fun p => mkExample p.1 set_type p.2)
      ∧ (createExamples df set_type).Sublist
          (df.map (fun p => mkExample p.1 set_type p.2))
      ∧ ∀ e ∈ createExamples df set_type, e.label ∈ LABEL_LIST := by
  refine ⟨createExamples_eq_filterMap df set_type, ?_, ?_⟩
  · rw [createExamples_eq_filterMap df set_type]
    exact List.Sublist.map _ (List.filter_sublist df)
  · intro e he
    rw [createExamples_eq_filterMap df set_type] at he
    simp only [List.mem_map, List.mem_filter] at he
    obtain ⟨⟨index, row⟩, ⟨_, hkeep⟩, rfl⟩ := he
    simp only [keepRow, Bool.and_eq_true] at hkeep
    have hlabel := hkeep.1.1
    cases hcell : row.gold_label with
    | nonStr => rw [hcell] at hlabel; simp [labelInList] at hlabel
    | str s =>
      rw [hcell] at hlabel
      simp only [labelInList, decide_eq_true_eq] at hlabel
      simpa [mkExample, hcell, PyCell.asStr] using hlabel

theorem create_examples_order_preserving_filter_witness :
    mkExample 0 "train" rowGood ∈ createExamples [(0, rowGood)] "train" ∧
      (mkExample 0 "train" rowGood).label ∈ LABEL_LIST :=
  ⟨by decide,
    (create_examples_order_preserving_filter [(0, rowGood)] "train").2.2
      (mkExample 0 "train" rowGood) (by decide)⟩

/-- C10: `evaluate` modifies no model weight and always leaves the model
in training mode, whatever mode it started in. -/
theorem evaluate_preserves_weights_restores_training {W B : Type}
    (forward : W → B → ℚ × ℚ) (m : ModelState W) (test_batches : List B) :
    (evaluate forward m test_batches).1.weights = m.weights ∧
      (evaluate forward m test_batches).1.training = true :=
  ⟨rfl, rfl⟩

end TextClassifier
